import Mathlib

/-!
Verification development for the SaviQWeeklyChecks repository.

This file gives a shallow embedding, in Lean 4, of the parts of the
repository that the specification's claims are about:

* the retry-aware HTTP client `_make_request_with_retry` from
  `dexcell_extractor.py` (modelled as a pure function over a sequence of
  HTTP outcomes supplied by the environment; `time.sleep` calls are
  recorded in a list instead of being performed);
* the task-building and sequential task-processing logic of
  `extract_data` from `dexcell_extractor.py` (the per-task network fetch
  is abstracted as a function argument; the sequential `max_workers == 1`
  path is modelled);
* the quality analysis pipeline of `data_quality_check.py`
  (window filtering, grouping by (device_id, device_name, param_key),
  `_calculate_expected_points`, `_analyze_device_quality`,
  `analyze_quality`);
* the trend analysis of `trend_check.py` (`_split_data_into_weeks`,
  `_calculate_period_totals`, `_calculate_trend_variance`,
  `_analyze_device_trend`, the loop of `analyze_trends`);
* the out-of-hours analysis of `working_hours_check.py`
  (`_calculate_daily_consumption`, `_identify_consumption_issues`,
  `_analyze_device_consumption`, the loop of `analyze_consumption`).

Modelling conventions:

* Python floats are modelled by `ℚ` (the data values are decimal CSV
  numbers and all claim-relevant arithmetic is exact);
* timestamps are modelled as integer seconds (naive, after the fixed
  one-hour adjustment applied by every loader), except in the trend
  module where the midpoint computation can produce half-integers and
  timestamps are therefore modelled as `ℚ`;
* Python's `round(x, 2)` is modelled by `round2` below; Python uses
  banker's rounding at exact ties, `round2` rounds half up — no claim
  depends on a tie;
* wall-clock metadata fields (`analysis_date`, `extraction_date`,
  `analysis_timestamp`) and file I/O are outside the embedding;
* the pandas `groupby` over the data rows is modelled by `groupByKey`:
  one group per distinct key actually present in the rows, each group
  holding exactly the rows with that key (pandas sorts the groups by
  key; none of the claims depends on group order).
-/

/-- Python `round(x, 2)`: round to two decimal places. -/
def round2 (q : ℚ) : ℚ := (round (q * 100) : ℤ) / 100

/-! ### Retry-aware HTTP client (`dexcell_extractor.py`, `_make_request_with_retry`) -/

/-- The parsed JSON body of a 200 response.  `hasValues` records whether the
`'values'` key is present; `content` stands for the rest of the payload so
that distinct payloads are distinguishable. -/
structure JsonData where
  hasValues : Bool
  content : ℤ
deriving DecidableEq, Repr

/-- One outcome of issuing the HTTP GET: a response with a status code and a
parsed body, a `requests.exceptions.Timeout`, or another
`requests.exceptions.RequestException`. -/
inductive HttpOutcome where
  | resp (code : ℕ) (data : JsonData)
  | timeout
  | reqError
deriving DecidableEq, Repr

/-- The observable behaviour of one call to `_make_request_with_retry`:
the returned value (`None` is `none`), the sequence of `time.sleep`
durations, and how many HTTP requests were issued. -/
structure RetryRun where
  result : Option JsonData
  sleeps : List ℚ
  attempts : ℕ
deriving DecidableEq, Repr

def baseWait : ℚ := 1
def maxWait : ℚ := 30
def maxRetries : ℕ := 3

/-- The body of the `for attempt in range(max_retries)` loop of
`_make_request_with_retry`, recursing on the remaining loop iterations.
`outs attempt` is the outcome of the request issued on iteration
`attempt`. -/
def retryFrom (outs : ℕ → HttpOutcome) : ℕ → ℕ → RetryRun
  | 0, _ => ⟨none, [], 0⟩
  | fuel + 1, attempt =>
    match outs attempt with
    | .resp 200 d =>
        -- 200: return the payload, unless the 'values' key is missing
        if d.hasValues then ⟨some d, [], 1⟩ else ⟨none, [], 1⟩
    | .resp 401 _ => ⟨none, [], 1⟩
    | .resp 429 _ =>
        let w := min (baseWait * 3 ^ attempt) maxWait
        let rest := retryFrom outs fuel (attempt + 1)
        ⟨rest.result, w :: rest.sleeps, rest.attempts + 1⟩
    | .resp c _ =>
        if c = 500 ∨ c = 502 ∨ c = 503 ∨ c = 504 then
          let w := min (baseWait * 2 ^ attempt) maxWait
          let rest := retryFrom outs fuel (attempt + 1)
          ⟨rest.result, w :: rest.sleeps, rest.attempts + 1⟩
        else ⟨none, [], 1⟩
    | .timeout =>
        let rest := retryFrom outs fuel (attempt + 1)
        ⟨rest.result,
          (if attempt < maxRetries - 1 then [baseWait * 2 ^ attempt] else []) ++ rest.sleeps,
          rest.attempts + 1⟩
    | .reqError =>
        let rest := retryFrom outs fuel (attempt + 1)
        ⟨rest.result,
          (if attempt < maxRetries - 1 then [baseWait * 2 ^ attempt] else []) ++ rest.sleeps,
          rest.attempts + 1⟩

/-- `_make_request_with_retry`, as observed through `RetryRun`. -/
def makeRequestWithRetry (outs : ℕ → HttpOutcome) : RetryRun :=
  retryFrom outs maxRetries 0

/-- C3: a 429 followed by a 200 carrying a `values` key makes the client
sleep `min(base_wait * 3^attempt, max_wait)` seconds — which is
`base_wait = 1` before the second attempt — and then return the 200
payload on the second attempt. -/
theorem retry_rate_limit_then_success (outs : ℕ → HttpOutcome) (d0 d1 : JsonData)
    (h0 : outs 0 = .resp 429 d0) (h1 : outs 1 = .resp 200 d1)
    (hv : d1.hasValues = true) :
    makeRequestWithRetry outs = ⟨some d1, [min (baseWait * 3 ^ 0) maxWait], 2⟩ ∧
      min (baseWait * 3 ^ 0) maxWait = 1 ∧
      baseWait ≤ min (baseWait * 3 ^ 0) maxWait := by
  refine ⟨?_, by norm_num [baseWait, maxWait], by norm_num [baseWait, maxWait]⟩
  simp only [makeRequestWithRetry, maxRetries, retryFrom, h0, h1, hv, if_true]

/-- Witness for `retry_rate_limit_then_success` at a concrete outcome
sequence. -/
theorem retry_rate_limit_then_success_witness :
    makeRequestWithRetry
        (fun n => if n = 1 then .resp 200 ⟨true, 7⟩ else .resp 429 ⟨false, 0⟩) =
      ⟨some ⟨true, 7⟩, [min (baseWait * 3 ^ 0) maxWait], 2⟩ :=
  (retry_rate_limit_then_success
      (fun n => if n = 1 then .resp 200 ⟨true, 7⟩ else .resp 429 ⟨false, 0⟩)
      ⟨false, 0⟩ ⟨true, 7⟩ rfl rfl rfl).1

/-- C4: a 401 on the first attempt makes the client return failure
(`None`) after exactly one issued request, with no sleep (hence no
retry); the embedding is a total function, so no exception escapes. -/
theorem retry_unauthorized_single_attempt (outs : ℕ → HttpOutcome) (d : JsonData)
    (h : outs 0 = .resp 401 d) :
    makeRequestWithRetry outs = ⟨none, [], 1⟩ := by
  simp only [makeRequestWithRetry, maxRetries, retryFrom, h]

/-- Witness for `retry_unauthorized_single_attempt` at a concrete outcome
sequence. -/
theorem retry_unauthorized_single_attempt_witness :
    makeRequestWithRetry (fun _ => .resp 401 ⟨true, 3⟩) = ⟨none, [], 1⟩ :=
  retry_unauthorized_single_attempt (fun _ => .resp 401 ⟨true, 3⟩) ⟨true, 3⟩ rfl

/-! ### Extraction engine (`dexcell_extractor.py`, `extract_data`) -/

/-- One entry of the configuration's `api_keys` list. -/
structure ApiKey where
  token : String
  client_name : String
deriving DecidableEq, Repr

/-- One entry of the configuration's `devices` list. -/
structure DeviceEntry where
  device_id : ℤ
  name : String
  param : String
deriving DecidableEq, Repr

/-- The parts of the extractor's JSON configuration used by
`extract_data` to build tasks (`start_date`/`end_date`/`request_type`
only parameterize the HTTP query and are not needed here). -/
structure ExtractorConfig where
  api_keys : List ApiKey
  params : List String
  devices : List DeviceEntry
deriving DecidableEq, Repr

/-- An extraction task, as assembled in the task-building loop of
`extract_data`. -/
structure ExtractionTask where
  token : String
  client_name : String
  device_id : ℤ
  device_name : String
  param_key : String
deriving DecidableEq, Repr

/-- The task dictionary built for one (API key, device) pair. -/
def mkTask (k : ApiKey) (d : DeviceEntry) : ExtractionTask :=
  ⟨k.token, k.client_name, d.device_id, d.name, d.param⟩

/-- The task-building loop of `extract_data`: for every API key and every
configured device, emit a task unless the device's `param` is not in the
configuration's `params` list (in which case the device is skipped via
`continue`). -/
def buildTasks (cfg : ExtractorConfig) : List ExtractionTask :=
  cfg.api_keys.flatMap fun k =>
    cfg.devices.filterMap fun d =>
      if d.param ∈ cfg.params then some (mkTask k d) else none

theorem mkTask_inj {k k' : ApiKey} {d d' : DeviceEntry} :
    mkTask k d = mkTask k' d' ↔ k = k' ∧ d = d' := by
  cases k; cases k'; cases d; cases d'
  simp only [mkTask, ExtractionTask.mk.injEq, ApiKey.mk.injEq, DeviceEntry.mk.injEq]
  tauto

theorem count_task_per_key (params : List String) (devices : List DeviceEntry)
    (hd : devices.Nodup) (k : ApiKey) (d : DeviceEntry)
    (hdm : d ∈ devices) (hp : d.param ∈ params) (k' : ApiKey) :
    ((devices.filterMap fun d' =>
        if d'.param ∈ params then some (mkTask k' d') else none).count (mkTask k d)) =
      if k' = k then 1 else 0 := by
  induction devices with
  | nil => cases hdm
  | cons d₀ ds ih =>
    have hd' : ds.Nodup := hd.of_cons
    by_cases hc : d₀.param ∈ params
    · rw [List.filterMap_cons]
      simp only [hc, if_true]
      rcases List.mem_cons.mp hdm with hEq | hmem
      · subst hEq
        have hnotin : d ∉ ds := (List.nodup_cons.mp hd).1
        have hzero : ((ds.filterMap fun d' =>
            if d'.param ∈ params then some (mkTask k' d') else none).count (mkTask k d)) = 0 := by
          rw [List.count_eq_zero]
          intro hmem2
          obtain ⟨d', hd'm, hsome⟩ := List.mem_filterMap.mp hmem2
          by_cases hc' : d'.param ∈ params
          · simp only [hc', if_true, Option.some.injEq] at hsome
            obtain ⟨-, rfl⟩ := mkTask_inj.mp hsome
            exact hnotin hd'm
          · simp [hc'] at hsome
        by_cases hk : k' = k
        · subst hk
          simp [List.count_cons, hzero]
        · have hne : mkTask k' d ≠ mkTask k d := fun h => hk (mkTask_inj.mp h).1
          simp [List.count_cons, hzero, hne, hk]
      · have hne : mkTask k' d₀ ≠ mkTask k d := by
          intro h
          obtain ⟨-, rfl⟩ := mkTask_inj.mp h
          exact (List.nodup_cons.mp hd).1 hmem
        rw [List.count_cons]
        simp only [beq_iff_eq, hne, if_false, Nat.add_zero]
        exact ih hd' hmem
    · rw [List.filterMap_cons]
      simp only [hc, if_false]
      rcases List.mem_cons.mp hdm with hEq | hmem
      · subst hEq; exact absurd hp hc
      · exact ih hd' hmem

theorem count_task_flatMap (params : List String) (devices : List DeviceEntry)
    (hd : devices.Nodup) (k : ApiKey) (d : DeviceEntry)
    (hdm : d ∈ devices) (hp : d.param ∈ params) :
    ∀ keys : List ApiKey, keys.Nodup → k ∈ keys →
      ((keys.flatMap fun k' => devices.filterMap fun d' =>
          if d'.param ∈ params then some (mkTask k' d') else none).count (mkTask k d)) = 1 := by
  intro keys
  induction keys with
  | nil => intro _ hkm; cases hkm
  | cons k₀ ks ih =>
    intro hk hkm
    rw [List.flatMap_cons, List.count_append]
    rcases List.mem_cons.mp hkm with hEq | hmem
    · subst hEq
      rw [count_task_per_key params devices hd k d hdm hp k]
      have hzero : ((ks.flatMap fun k' => devices.filterMap fun d' =>
          if d'.param ∈ params then some (mkTask k' d') else none).count (mkTask k d)) = 0 := by
        rw [List.count_eq_zero]
        intro hmem2
        obtain ⟨k', hk'm, hmem3⟩ := List.mem_flatMap.mp hmem2
        obtain ⟨d', hd'm, hsome⟩ := List.mem_filterMap.mp hmem3
        by_cases hc' : d'.param ∈ params
        · simp only [hc', if_true, Option.some.injEq] at hsome
          obtain ⟨rfl, -⟩ := mkTask_inj.mp hsome
          exact (List.nodup_cons.mp hk).1 hk'm
        · simp [hc'] at hsome
      simp [hzero]
    · rw [count_task_per_key params devices hd k d hdm hp k₀]
      have hne : k₀ ≠ k := by
        rintro rfl
        exact (List.nodup_cons.mp hk).1 hmem
      simp only [hne, if_false, Nat.zero_add]
      exact ih hk.of_cons hmem

/-- C7: with duplicate-free key and device lists, `extract_data` builds
exactly one task per (API key, configured device) pair whose `param` is in
the configuration's `params` list, and a device whose `param` is not in
that list contributes no task at all. -/
theorem extraction_task_generation (cfg : ExtractorConfig)
    (hk : cfg.api_keys.Nodup) (hd : cfg.devices.Nodup) :
    (∀ k ∈ cfg.api_keys, ∀ d ∈ cfg.devices, d.param ∈ cfg.params →
        (buildTasks cfg).count (mkTask k d) = 1) ∧
    (∀ d ∈ cfg.devices, d.param ∉ cfg.params → ∀ k, mkTask k d ∉ buildTasks cfg) := by
  constructor
  · intro k hkm d hdm hp
    exact count_task_flatMap cfg.params cfg.devices hd k d hdm hp cfg.api_keys hk hkm
  · intro d _ hp k hmem
    obtain ⟨k', _, hmem2⟩ := List.mem_flatMap.mp hmem
    obtain ⟨d', _, hsome⟩ := List.mem_filterMap.mp hmem2
    by_cases hc' : d'.param ∈ cfg.params
    · simp only [hc', if_true, Option.some.injEq] at hsome
      obtain ⟨-, rfl⟩ := mkTask_inj.mp hsome
      exact hp hc'
    · simp [hc'] at hsome

/-- Witness for `extraction_task_generation` at a concrete configuration:
one API key and two devices, of which only the first has a whitelisted
parameter. -/
theorem extraction_task_generation_witness :
    ((buildTasks ⟨[⟨"tok", "Client A"⟩], ["EACTIVE"],
        [⟨1, "Dev1", "EACTIVE"⟩, ⟨2, "Dev2", "WATER"⟩]⟩).count
      (mkTask ⟨"tok", "Client A"⟩ ⟨1, "Dev1", "EACTIVE"⟩) = 1) ∧
    (mkTask ⟨"tok", "Client A"⟩ ⟨2, "Dev2", "WATER"⟩ ∉
      buildTasks ⟨[⟨"tok", "Client A"⟩], ["EACTIVE"],
        [⟨1, "Dev1", "EACTIVE"⟩, ⟨2, "Dev2", "WATER"⟩]⟩) := by
  have h := extraction_task_generation
    ⟨[⟨"tok", "Client A"⟩], ["EACTIVE"], [⟨1, "Dev1", "EACTIVE"⟩, ⟨2, "Dev2", "WATER"⟩]⟩
    (by decide) (by decide)
  exact ⟨h.1 _ (by decide) _ (by decide) (by decide),
         h.2 _ (by decide) (by decide) _⟩

/-- The sequential (`max_workers == 1`) task-processing loop of
`extract_data`: each task's fetched records are appended to the shared
result list when non-empty, otherwise the task is recorded as failed.
The per-task network fetch is abstracted as `fetch`. -/
def runSequential {β : Type} (fetch : ExtractionTask → List β)
    (tasks : List ExtractionTask) : List β × List ExtractionTask :=
  tasks.foldl
    (fun acc t =>
      let results := fetch t
      if results.isEmpty then (acc.1, acc.2 ++ [t]) else (acc.1 ++ results, acc.2))
    ([], [])

/-- The completion summary logged at the end of `extract_data`. -/
structure ExtractionSummary where
  total_tasks : ℕ
  successful : ℕ
  failed : ℕ
  success_rate : ℚ
  total_records : ℕ
deriving DecidableEq, Repr

/-- The summary values computed by `extract_data` after the processing
loop: `successful = total - failed`, `success_rate = (total - failed) /
total * 100` when there are tasks and `0` otherwise. -/
def extractionSummary {β : Type} (fetch : ExtractionTask → List β)
    (tasks : List ExtractionTask) : ExtractionSummary :=
  let run := runSequential fetch tasks
  { total_tasks := tasks.length
    successful := tasks.length - run.2.length
    failed := run.2.length
    success_rate :=
      if 0 < tasks.length then
        ((tasks.length - run.2.length : ℕ) : ℚ) / (tasks.length : ℚ) * 100
      else 0
    total_records := run.1.length }

theorem runSequential_eq {β : Type} (fetch : ExtractionTask → List β)
    (tasks : List ExtractionTask) :
    runSequential fetch tasks =
      (tasks.flatMap fetch, tasks.filter fun t => (fetch t).isEmpty) := by
  have h : ∀ (ts : List ExtractionTask) (res : List β) (failed : List ExtractionTask),
      ts.foldl (fun acc t =>
          let results := fetch t
          if results.isEmpty then (acc.1, acc.2 ++ [t]) else (acc.1 ++ results, acc.2))
        (res, failed) =
        (res ++ ts.flatMap fetch, failed ++ ts.filter fun t => (fetch t).isEmpty) := by
    intro ts
    induction ts with
    | nil => intro res failed; simp
    | cons t ts ih =>
      intro res failed
      by_cases hE : (fetch t).isEmpty
      · have h0 : fetch t = [] := by simpa using hE
        simp [List.foldl_cons, List.filter_cons, h0, ih]
      · simp [List.foldl_cons, List.filter_cons, hE, ih]
  simpa using h tasks [] []

/-- C8: the sequential run processes every task (the collected records
are the concatenation of every task's records and the failed list is
exactly the tasks with zero records), and the completion summary
satisfies: `successful` = number of tasks with at least one record,
`failed` = total − successful, `success_rate` = successful / total * 100
(0 with no tasks), and `total_records` = number of aggregated records. -/
theorem extraction_run_summary {β : Type} (fetch : ExtractionTask → List β)
    (tasks : List ExtractionTask) :
    runSequential fetch tasks =
      (tasks.flatMap fetch, tasks.filter fun t => (fetch t).isEmpty) ∧
    (extractionSummary fetch tasks).successful =
      (tasks.filter fun t => !(fetch t).isEmpty).length ∧
    (extractionSummary fetch tasks).failed =
      (tasks.filter fun t => (fetch t).isEmpty).length ∧
    (extractionSummary fetch tasks).total_records =
      (tasks.map fun t => (fetch t).length).sum ∧
    (extractionSummary fetch tasks).success_rate =
      (if 0 < tasks.length then
        (((tasks.filter fun t => !(fetch t).isEmpty).length : ℚ) / (tasks.length : ℚ)) * 100
       else 0) := by
  have hrun := runSequential_eq fetch tasks
  have hlen := List.length_eq_length_filter_add (l := tasks)
    (fun t => (fetch t).isEmpty)
  have hsucc : tasks.length - (tasks.filter fun t => (fetch t).isEmpty).length =
      (tasks.filter fun t => !(fetch t).isEmpty).length := by omega
  refine ⟨hrun, ?_, ?_, ?_, ?_⟩
  · simp [extractionSummary, hrun, hsucc]
  · simp [extractionSummary, hrun]
  · simp [extractionSummary, hrun, List.length_flatMap, Function.comp_def]
  · simp only [extractionSummary, hrun, hsucc]

/-! ### Quality analysis (`data_quality_check.py`) -/

/-- One row of the extracted-data CSV as seen by an analysis module,
after timestamp normalization (`ts` is in seconds, naive, with the fixed
one-hour adjustment already applied). -/
structure QReading where
  client_name : String
  device_id : ℤ
  device_name : String
  param_key : String
  ts : ℤ
  value : ℚ
deriving DecidableEq, Repr

/-- The pandas groupby key `(device_id, device_name, param_key)`. -/
abbrev GroupKey := ℤ × String × String

def QReading.key (r : QReading) : GroupKey :=
  (r.device_id, r.device_name, r.param_key)

/-- The `_prepare_*` filter common to the analysis modules: keep rows with
`start_date <= timestamp <= end_date` (both inclusive), the bounds taken
from the configuration. -/
def filterWindow (s e : ℤ) (rows : List QReading) : List QReading :=
  rows.filter fun r => decide (s ≤ r.ts) && decide (r.ts ≤ e)

/-- `data.groupby(['device_id', 'device_name', 'param_key'])`: one group
per distinct key occurring in the rows, holding exactly the rows with
that key. -/
def groupByKey (rows : List QReading) : List (GroupKey × List QReading) :=
  ((rows.map QReading.key).dedup).map fun k =>
    (k, rows.filter fun r => decide (r.key = k))

/-- One entry of the analysis configuration's `devices` list. -/
structure DeviceConfig where
  device_id : ℤ
  name : String
  param : String
deriving DecidableEq, Repr

/-- The parts of the analysis JSON configuration the analyzers compute
with: the device list and the parsed `start_date`/`end_date` window (in
seconds); `request_type` only triggers warnings. -/
structure AnalysisConfig where
  devices : List DeviceConfig
  start_sec : ℤ
  end_sec : ℤ
deriving DecidableEq, Repr

/-- The `device_config.get((device_id, param_key))` lookup built from
`{(d['device_id'], d['param']): d for d in self.config['devices']}`:
a group passes iff some configured device matches its id and param. -/
def isConfigured (cfg : AnalysisConfig) (did : ℤ) (pk : String) : Bool :=
  cfg.devices.any fun dc => decide (dc.device_id = did) && decide (dc.param = pk)

/-- `_calculate_expected_points`: `int((end-start).total_seconds()/3600) + 1`.
Python `int()` truncates toward zero, which is `Int.tdiv`. -/
def calculateExpectedPoints (cfg : AnalysisConfig) : ℤ :=
  Int.tdiv (cfg.end_sec - cfg.start_sec) 3600 + 1

/-- The record returned by `_analyze_device_quality` (wall-clock metadata
fields omitted). -/
structure QualityResult where
  client_name : String
  device_id : ℤ
  device_name : String
  param_key : String
  expected_points : ℤ
  actual_points : ℕ
  completeness_percentage : ℚ
  zero_count : ℕ
  zero_percentage : ℚ
  negative_count : ℕ
  negative_percentage : ℚ
  quality_flags : List String
  is_flagged : Bool
deriving DecidableEq, Repr

/-- `_analyze_device_quality` for one device/parameter group.  The group
produced by `groupByKey` is never empty, so `head?.getD "Unknown"` only
defaults on inputs the Python code never sees. -/
def analyzeDeviceQuality (cfg : AnalysisConfig) (g : List QReading)
    (did : ℤ) (dn pk : String) : QualityResult :=
  let expected := calculateExpectedPoints cfg
  let actual := g.length
  let completeness : ℚ := if 0 < expected then (actual : ℚ) / (expected : ℚ) * 100 else 0
  let zeroCount := (g.filter fun r => decide (r.value = 0)).length
  let zeroPct : ℚ := if 0 < actual then (zeroCount : ℚ) / (actual : ℚ) * 100 else 0
  let negCount := (g.filter fun r => decide (r.value < 0)).length
  let negPct : ℚ := if 0 < actual then (negCount : ℚ) / (actual : ℚ) * 100 else 0
  let flags := (if completeness < 90 then ["Poor Completeness"] else []) ++
               (if zeroPct > 10 then ["High Zero Values"] else []) ++
               (if negPct > 0 then ["Negative Values"] else [])
  { client_name := (g.head?.map QReading.client_name).getD "Unknown"
    device_id := did
    device_name := dn
    param_key := pk
    expected_points := expected
    actual_points := actual
    completeness_percentage := round2 completeness
    zero_count := zeroCount
    zero_percentage := round2 zeroPct
    negative_count := negCount
    negative_percentage := round2 negPct
    quality_flags := flags
    is_flagged := 0 < flags.length }

/-- The loop of `analyze_quality`: analyze each group whose
`(device_id, param_key)` is configured, skip the others with a warning. -/
def analyzeQualityGroups (cfg : AnalysisConfig)
    (gs : List (GroupKey × List QReading)) : List QualityResult :=
  gs.filterMap fun kg =>
    if isConfigured cfg kg.1.1 kg.1.2.2 then
      some (analyzeDeviceQuality cfg kg.2 kg.1.1 kg.1.2.1 kg.1.2.2)
    else none

/-- The full `analyze_quality` pipeline: window filter, groupby, per-group
analysis. -/
def qualityResults (cfg : AnalysisConfig) (rows : List QReading) : List QualityResult :=
  analyzeQualityGroups cfg (groupByKey (filterWindow cfg.start_sec cfg.end_sec rows))

/-- Every quality result comes from a group keyed by its
`(device_id, device_name, param_key)`, and that key occurs among the
window-filtered rows. -/
theorem qualityResults_key_occurs (cfg : AnalysisConfig) (rows : List QReading)
    (r : QualityResult) (hr : r ∈ qualityResults cfg rows) :
    ∃ row ∈ filterWindow cfg.start_sec cfg.end_sec rows,
      row.device_id = r.device_id ∧ row.param_key = r.param_key := by
  simp only [qualityResults, analyzeQualityGroups, groupByKey] at hr
  obtain ⟨kg, hkg, hsome⟩ := List.mem_filterMap.mp hr
  obtain ⟨k, hk, hkeq⟩ := List.mem_map.mp hkg
  obtain ⟨row, hrow, hrowkey⟩ := List.mem_map.mp (List.mem_dedup.mp hk)
  by_cases hc : isConfigured cfg kg.1.1 kg.1.2.2
  · simp only [hc, if_true, Option.some.injEq] at hsome
    have hfst : k = kg.1 := congrArg Prod.fst hkeq
    refine ⟨row, hrow, ?_, ?_⟩
    · have h2 : r.device_id = kg.1.1 := by rw [← hsome]; rfl
      rw [h2, ← hfst, ← hrowkey]; rfl
    · have h2 : r.param_key = kg.1.2.2 := by rw [← hsome]; rfl
      rw [h2, ← hfst, ← hrowkey]; rfl
  · simp [hc] at hsome

/-- Every quality result is the analysis of some group. -/
theorem qualityResults_mem_decompose (cfg : AnalysisConfig) (rows : List QReading)
    (r : QualityResult) (hr : r ∈ qualityResults cfg rows) :
    ∃ g did dn pk, r = analyzeDeviceQuality cfg g did dn pk := by
  simp only [qualityResults, analyzeQualityGroups] at hr
  obtain ⟨kg, _, hsome⟩ := List.mem_filterMap.mp hr
  by_cases hc : isConfigured cfg kg.1.1 kg.1.2.2
  · simp only [hc, if_true, Option.some.injEq] at hsome
    exact ⟨kg.2, kg.1.1, kg.1.2.1, kg.1.2.2, hsome.symm⟩
  · simp [hc] at hsome

theorem mem_filterWindow_le (s e : ℤ) (rows : List QReading) (row : QReading)
    (h : row ∈ filterWindow s e rows) : s ≤ row.ts ∧ row.ts ≤ e := by
  have := List.mem_filter.mp h
  simpa using this.2

/-- Configuration and data rows for the zero-readings scenario: one
configured device/parameter pair, a 24-hour window, and a single reading
that falls outside the window. -/
def cfgZeroRead : AnalysisConfig := ⟨[⟨1, "Device A", "EACTIVE"⟩], 0, 86400⟩

def rowsZeroRead : List QReading :=
  [⟨"Client A", 1, "Device A", "EACTIVE", 200000, 5⟩]

/-- C1 is false on the code: the configured pair (1, "EACTIVE") has zero
readings inside the window, yet `analyze_quality` produces no result
record at all (the groupby only yields groups for keys present in the
filtered data), rather than a record with completeness 0.0 flagged
"Poor Completeness". -/
theorem quality_zero_readings_counterexample :
    isConfigured cfgZeroRead 1 "EACTIVE" = true ∧
    filterWindow cfgZeroRead.start_sec cfgZeroRead.end_sec rowsZeroRead = [] ∧
    qualityResults cfgZeroRead rowsZeroRead = [] :=
  ⟨rfl, rfl, rfl⟩

/-- C1 (amended): a configured device/parameter pair with zero readings
inside the configured analysis window yields no result record at all —
the pair is simply absent from the quality results. -/
theorem quality_zero_readings_no_record (cfg : AnalysisConfig) (rows : List QReading)
    (did : ℤ) (pk : String)
    (hconf : isConfigured cfg did pk = true)
    (hempty : (filterWindow cfg.start_sec cfg.end_sec rows).filter
        (fun row => decide (row.device_id = did) && decide (row.param_key = pk)) = []) :
    (qualityResults cfg rows).filter
        (fun r => decide (r.device_id = did) && decide (r.param_key = pk)) = [] := by
  rw [List.filter_eq_nil_iff]
  intro r hr hpred
  simp only [Bool.and_eq_true, decide_eq_true_eq] at hpred
  obtain ⟨row, hrow, hdid, hpk⟩ := qualityResults_key_occurs cfg rows r hr
  rw [List.filter_eq_nil_iff] at hempty
  exact hempty row hrow (by simp [hdid, hpk, hpred.1, hpred.2])

/-- Witness for `quality_zero_readings_no_record` at the concrete
zero-readings scenario. -/
theorem quality_zero_readings_no_record_witness :
    (qualityResults cfgZeroRead rowsZeroRead).filter
        (fun r => decide (r.device_id = 1) && decide (r.param_key = "EACTIVE")) = [] :=
  quality_zero_readings_no_record cfgZeroRead rowsZeroRead 1 "EACTIVE" rfl rfl

/-- Configuration and data for the full 24-hour window scenario: one
device with a reading at every hour of `[0, 86400]`. -/
def cfgFullDay : AnalysisConfig := ⟨[⟨1, "Device A", "EACTIVE"⟩], 0, 86400⟩

def rowsFullDay : List QReading :=
  (List.range 25).map fun (i : ℕ) => ⟨"Client A", 1, "Device A", "EACTIVE", 3600 * (i : ℤ), 1⟩

theorem dedup_replicate_pos {α : Type} [DecidableEq α] (k : α) :
    ∀ n : ℕ, 0 < n → (List.replicate n k).dedup = [k] := by
  intro n
  induction n with
  | zero => intro h; exact absurd h (lt_irrefl 0)
  | succ m ih =>
    intro _
    cases m with
    | zero => simp
    | succ m' =>
      rw [List.replicate_succ, List.dedup_cons_of_mem (by simp)]
      exact ih (Nat.succ_pos m')

/-- When every row carries the same key, the groupby yields a single
group holding all the rows. -/
theorem groupByKey_const (rows : List QReading) (k : GroupKey)
    (hne : rows ≠ []) (hall : ∀ r ∈ rows, r.key = k) :
    groupByKey rows = [(k, rows)] := by
  have hmap : rows.map QReading.key = List.replicate rows.length k := by
    have h := List.eq_replicate_of_mem (l := rows.map QReading.key) (a := k) (by
      intro b hb
      obtain ⟨r, hr, rfl⟩ := List.mem_map.mp hb
      exact hall r hr)
    simpa [List.length_map] using h
  have hded : (rows.map QReading.key).dedup = [k] := by
    rw [hmap]
    exact dedup_replicate_pos k rows.length (List.length_pos_of_ne_nil hne)
  have hfilter : (rows.filter fun r => decide (r.key = k)) = rows := by
    rw [List.filter_eq_self]
    intro r hr
    simp [hall r hr]
  simp only [groupByKey, hded, List.map_cons, List.map_nil, hfilter]

/-- C6: every quality result's `expected_points` equals
`floor((end - start) in hours) + 1` (any result implies some reading is
in-window, so the window is non-degenerate and Python's truncating
division agrees with floor); a 24-hour window gives `expected_points`
25; a device with a reading at every hour of that window gets
`completeness == 100.0`; and every result's stored completeness is
`actual_points / expected_points * 100` (rounded to two decimals). -/
theorem quality_expected_points_formula :
    (∀ (cfg : AnalysisConfig) (rows : List QReading),
      ((qualityResults cfg rows).all fun r =>
        decide (r.expected_points = Int.fdiv (cfg.end_sec - cfg.start_sec) 3600 + 1)) = true) ∧
    calculateExpectedPoints cfgFullDay = 25 ∧
    ((qualityResults cfgFullDay rowsFullDay).map fun r =>
      (r.expected_points, r.completeness_percentage)) = [(25, 100)] ∧
    (∀ (cfg : AnalysisConfig) (rows : List QReading),
      ((qualityResults cfg rows).all fun r =>
        decide (r.completeness_percentage =
          round2 ((r.actual_points : ℚ) / ((r.expected_points : ℤ) : ℚ) * 100))) = true) := by
  have hwin : ∀ (cfg : AnalysisConfig) (rows : List QReading) (r : QualityResult),
      r ∈ qualityResults cfg rows → cfg.start_sec ≤ cfg.end_sec := by
    intro cfg rows r hr
    obtain ⟨row, hrow, -, -⟩ := qualityResults_key_occurs cfg rows r hr
    have := mem_filterWindow_le cfg.start_sec cfg.end_sec rows row hrow
    omega
  refine ⟨?_, by decide, ?_, ?_⟩
  case refine_2 =>
    have hfw : filterWindow cfgFullDay.start_sec cfgFullDay.end_sec rowsFullDay = rowsFullDay := by
      unfold filterWindow
      rw [List.filter_eq_self]
      intro r hr
      simp only [rowsFullDay, List.mem_map, List.mem_range] at hr
      obtain ⟨i, hi, rfl⟩ := hr
      simp only [cfgFullDay, Bool.and_eq_true, decide_eq_true_eq]
      have hi' : (i : ℤ) ≤ 24 := by exact_mod_cast Nat.lt_succ_iff.mp hi
      constructor
      · positivity
      · nlinarith
    have hall : ∀ r ∈ rowsFullDay, r.key = ((1 : ℤ), "Device A", "EACTIVE") := by
      intro r hr
      simp only [rowsFullDay, List.mem_map, List.mem_range] at hr
      obtain ⟨i, hi, rfl⟩ := hr
      rfl
    have hne : rowsFullDay ≠ [] := by
      simp [rowsFullDay, List.map_eq_nil_iff, List.range_eq_nil]
    have hgb := groupByKey_const rowsFullDay ((1 : ℤ), "Device A", "EACTIVE") hne hall
    have hlen : rowsFullDay.length = 25 := by
      simp only [rowsFullDay, List.length_map, List.length_range]
    simp only [qualityResults, hfw, hgb, analyzeQualityGroups, List.filterMap_cons,
      List.filterMap_nil]
    have hcfgd : isConfigured cfgFullDay 1 "EACTIVE" = true := by decide
    simp only [hcfgd, if_true, List.map_cons, List.map_nil]
    have hexp : calculateExpectedPoints cfgFullDay = 25 := by decide
    simp only [analyzeDeviceQuality, hexp, hlen]
    norm_num [round2]
  · intro cfg rows
    rw [List.all_eq_true]
    intro r hr
    obtain ⟨g, did, dn, pk, rfl⟩ := qualityResults_mem_decompose cfg rows r hr
    have hle : cfg.start_sec ≤ cfg.end_sec := hwin cfg rows _ hr
    have hfd : Int.fdiv (cfg.end_sec - cfg.start_sec) 3600 =
        Int.tdiv (cfg.end_sec - cfg.start_sec) 3600 :=
      Int.fdiv_eq_tdiv (by omega) (by norm_num)
    simp [analyzeDeviceQuality, calculateExpectedPoints, hfd]
  · intro cfg rows
    rw [List.all_eq_true]
    intro r hr
    have hle : cfg.start_sec ≤ cfg.end_sec := hwin cfg rows r hr
    obtain ⟨g, did, dn, pk, rfl⟩ := qualityResults_mem_decompose cfg rows r hr
    have hpos : 0 < calculateExpectedPoints cfg := by
      have : 0 ≤ Int.tdiv (cfg.end_sec - cfg.start_sec) 3600 :=
        Int.tdiv_nonneg (by omega) (by norm_num)
      simp only [calculateExpectedPoints]
      omega
    simp [analyzeDeviceQuality, hpos]

/-! ### Trend analysis (`trend_check.py`) -/

/-- One CSV row as seen by the trend analyzer.  Timestamps are `ℚ`
because the midpoint of a data span can fall between two seconds. -/
structure TrendReading where
  client_name : String
  device_id : ℤ
  device_name : String
  param_key : String
  ts : ℚ
  value : ℚ
deriving DecidableEq, Repr

def TrendReading.key (r : TrendReading) : GroupKey :=
  (r.device_id, r.device_name, r.param_key)

/-- `_split_data_into_weeks`: split at the midpoint of the group's own
data span; first period takes `timestamp <= midpoint`, second takes
`timestamp > midpoint`.  Empty input raises `ValueError` in Python,
modelled as `none`.  (The Python code re-sorts by timestamp first;
sorting does not change the filters' results, the sums, the counts or
the extrema, so the order is kept.) -/
def splitDataIntoWeeks (rows : List TrendReading) :
    Option (List TrendReading × List TrendReading) :=
  match rows with
  | [] => none
  | r0 :: rest =>
    let mn := (rest.map TrendReading.ts).foldl min r0.ts
    let mx := (rest.map TrendReading.ts).foldl max r0.ts
    let mid := mn + (mx - mn) / 2
    some (rows.filter fun r => decide (r.ts ≤ mid),
          rows.filter fun r => decide (mid < r.ts))

/-- The statistics dictionary of `_calculate_period_totals`.  All values
are numeric in the embedding, so the `pd.to_numeric(...).dropna()` step
keeps every row. -/
structure PeriodStats where
  total : ℚ
  average : ℚ
  count : ℕ
  min_value : ℚ
  max_value : ℚ
  zero_count : ℕ
deriving DecidableEq, Repr

def calculatePeriodTotals (rows : List TrendReading) : PeriodStats :=
  match rows with
  | [] => ⟨0, 0, 0, 0, 0, 0⟩
  | r0 :: rest =>
    let vals := (r0 :: rest).map TrendReading.value
    { total := vals.sum
      average := vals.sum / (vals.length : ℚ)
      count := vals.length
      min_value := (rest.map TrendReading.value).foldl min r0.value
      max_value := (rest.map TrendReading.value).foldl max r0.value
      zero_count := (vals.filter fun v => decide (v = 0)).length }

/-- The dictionary returned by `_calculate_trend_variance`. -/
structure TrendMetrics where
  percentage_change : ℚ
  absolute_difference : ℚ
  trend_direction : String
  is_flagged : Bool
  baseline_period : ℚ
  comparison_period : ℚ
deriving DecidableEq, Repr

/-- `_calculate_trend_variance`.  The internal `float('inf')` percentage
change of the zero-baseline case is modelled as `none`; the function
reports it as the sentinel `999.99`. -/
def calculateTrendVariance (threshold p1 p2 : ℚ) : TrendMetrics :=
  let pc : Option ℚ :=
    if p1 = 0 then (if p2 = 0 then some 0 else none)
    else some ((p2 - p1) / p1 * 100)
  let dir : String :=
    match pc with
    | none => "significant_increase"
    | some c =>
      if |c| ≤ threshold then "stable"
      else if c > threshold then "increasing"
      else "decreasing"
  let flagged : Bool :=
    match pc with
    | none => true
    | some c => decide (|c| > threshold)
  { percentage_change := pc.getD 999.99
    absolute_difference := p2 - p1
    trend_direction := dir
    is_flagged := flagged
    baseline_period := p1
    comparison_period := p2 }

/-- The record returned by `_analyze_device_trend` (wall-clock metadata
and the ISO period strings omitted).  The `none` split corresponds to
the `except` branch, which returns the error pseudo-result with
`trend_direction = "error"` and `is_flagged = True` (the Python error
dict has no period min/max keys; they are 0 here). -/
structure TrendRecord where
  client_name : String
  device_id : ℤ
  device_name : String
  param_key : String
  period1_total : ℚ
  period1_average : ℚ
  period1_count : ℕ
  period1_min : ℚ
  period1_max : ℚ
  period2_total : ℚ
  period2_average : ℚ
  period2_count : ℕ
  period2_min : ℚ
  period2_max : ℚ
  percentage_change : ℚ
  absolute_difference : ℚ
  trend_direction : String
  is_flagged : Bool
  threshold_used : ℚ
  total_data_points : ℕ
deriving DecidableEq, Repr

def analyzeDeviceTrend (threshold : ℚ) (rows : List TrendReading)
    (did : ℤ) (dn pk : String) : TrendRecord :=
  match splitDataIntoWeeks rows with
  | some (p1, p2) =>
    let s1 := calculatePeriodTotals p1
    let s2 := calculatePeriodTotals p2
    let m := calculateTrendVariance threshold s1.total s2.total
    { client_name := (rows.head?.map TrendReading.client_name).getD "Unknown"
      device_id := did
      device_name := dn
      param_key := pk
      period1_total := round2 s1.total
      period1_average := round2 s1.average
      period1_count := s1.count
      period1_min := round2 s1.min_value
      period1_max := round2 s1.max_value
      period2_total := round2 s2.total
      period2_average := round2 s2.average
      period2_count := s2.count
      period2_min := round2 s2.min_value
      period2_max := round2 s2.max_value
      percentage_change := round2 m.percentage_change
      absolute_difference := round2 m.absolute_difference
      trend_direction := m.trend_direction
      is_flagged := m.is_flagged
      threshold_used := threshold
      total_data_points := rows.length }
  | none =>
    { client_name := (rows.head?.map TrendReading.client_name).getD "Unknown"
      device_id := did
      device_name := dn
      param_key := pk
      period1_total := 0
      period1_average := 0
      period1_count := 0
      period1_min := 0
      period1_max := 0
      period2_total := 0
      period2_average := 0
      period2_count := 0
      period2_min := 0
      period2_max := 0
      percentage_change := 0
      absolute_difference := 0
      trend_direction := "error"
      is_flagged := true
      threshold_used := threshold
      total_data_points := rows.length }

/-- The loop of `analyze_trends`: analyze each group whose
`(device_id, param_key)` is configured, skip the others with a warning. -/
def analyzeTrendGroups (cfg : AnalysisConfig) (threshold : ℚ)
    (gs : List (GroupKey × List TrendReading)) : List TrendRecord :=
  gs.filterMap fun kg =>
    if isConfigured cfg kg.1.1 kg.1.2.2 then
      some (analyzeDeviceTrend threshold kg.2 kg.1.1 kg.1.2.1 kg.1.2.2)
    else none

/-- A device group with all-zero readings: both period totals are 0. -/
def rowsBothZero : List TrendReading :=
  [⟨"Client A", 1, "Device A", "EACTIVE", 0, 0⟩,
   ⟨"Client A", 1, "Device A", "EACTIVE", 100, 0⟩]

/-- C2 is false as stated: a device group whose first-period total is
zero but whose second-period total is also zero is reported as
`percentage_change = 0.0`, `trend_direction = "stable"`, and is not
flagged — not the 999.99 sentinel. -/
theorem trend_zero_baseline_counterexample :
    (splitDataIntoWeeks rowsBothZero).map
        (fun p => ((calculatePeriodTotals p.1).total, (calculatePeriodTotals p.2).total)) =
      some (0, 0) ∧
    (analyzeDeviceTrend 10 rowsBothZero 1 "Device A" "EACTIVE").percentage_change = 0 ∧
    (analyzeDeviceTrend 10 rowsBothZero 1 "Device A" "EACTIVE").trend_direction = "stable" ∧
    (analyzeDeviceTrend 10 rowsBothZero 1 "Device A" "EACTIVE").is_flagged = false := by
  have hsplit : splitDataIntoWeeks rowsBothZero =
      some ([⟨"Client A", 1, "Device A", "EACTIVE", 0, 0⟩],
            [⟨"Client A", 1, "Device A", "EACTIVE", 100, 0⟩]) := by
    norm_num [splitDataIntoWeeks, rowsBothZero, List.filter_cons, min_def, max_def]
  refine ⟨?_, ?_⟩
  · rw [hsplit]
    norm_num [calculatePeriodTotals]
  · simp only [analyzeDeviceTrend, hsplit]
    norm_num [calculatePeriodTotals, calculateTrendVariance, round2]

/-- C2 (amended): for every device group analyzed by the trend analyzer
whose first-period total is zero and whose second-period total is
non-zero, the result reports the sentinel `percentage_change == 999.99`,
`trend_direction == "significant_increase"`, and `is_flagged == true`. -/
theorem trend_zero_baseline_sentinel (threshold : ℚ) (rows : List TrendReading)
    (did : ℤ) (dn pk : String) (p1 p2 : List TrendReading)
    (hsplit : splitDataIntoWeeks rows = some (p1, p2))
    (h1 : (calculatePeriodTotals p1).total = 0)
    (h2 : (calculatePeriodTotals p2).total ≠ 0) :
    (analyzeDeviceTrend threshold rows did dn pk).percentage_change = 999.99 ∧
    (analyzeDeviceTrend threshold rows did dn pk).trend_direction = "significant_increase" ∧
    (analyzeDeviceTrend threshold rows did dn pk).is_flagged = true := by
  simp only [analyzeDeviceTrend, hsplit]
  simp only [calculateTrendVariance, h1, if_pos rfl, if_neg h2]
  norm_num [round2]

/-- A device group with first-period total 0 and second-period total 5. -/
def rowsZeroFive : List TrendReading :=
  [⟨"Client A", 1, "Device A", "EACTIVE", 0, 0⟩,
   ⟨"Client A", 1, "Device A", "EACTIVE", 100, 5⟩]

/-- Witness for `trend_zero_baseline_sentinel`: first-period total 0 and
second-period total 5 yields exactly the sentinel values. -/
theorem trend_zero_baseline_sentinel_witness :
    (analyzeDeviceTrend 10 rowsZeroFive 1 "Device A" "EACTIVE").percentage_change = 999.99 ∧
    (analyzeDeviceTrend 10 rowsZeroFive 1 "Device A" "EACTIVE").trend_direction = "significant_increase" ∧
    (analyzeDeviceTrend 10 rowsZeroFive 1 "Device A" "EACTIVE").is_flagged = true :=
  trend_zero_baseline_sentinel 10 rowsZeroFive 1 "Device A" "EACTIVE"
    [⟨"Client A", 1, "Device A", "EACTIVE", 0, 0⟩]
    [⟨"Client A", 1, "Device A", "EACTIVE", 100, 5⟩]
    (by norm_num [splitDataIntoWeeks, rowsZeroFive, List.filter_cons, min_def, max_def])
    (by norm_num [calculatePeriodTotals])
    (by norm_num [calculatePeriodTotals])

/-! ### Out-of-hours analysis (`working_hours_check.py`) -/

/-- One reading of one device on one calendar day, as seen by
`_analyze_device_consumption` after `_prepare_time_analysis`:
`secOfDay` is the time-of-day of the (already adjusted) timestamp in
seconds. -/
structure WHRow where
  client_name : String
  secOfDay : ℕ
  value : ℚ
deriving DecidableEq, Repr

def workingHoursStart : ℕ := 7 * 3600
def workingHoursEnd : ℕ := 19 * 3600

/-- The `is_working_hours` column: `07:00:00 <= time < 19:00:00`
(half-open). -/
def isWorkingHours (r : WHRow) : Bool :=
  decide (workingHoursStart ≤ r.secOfDay) && decide (r.secOfDay < workingHoursEnd)

/-- The statistics dictionary of `_calculate_daily_consumption`. -/
structure DailyConsumption where
  working_hours_consumption : ℚ
  out_of_hours_consumption : ℚ
  total_consumption : ℚ
  out_of_hours_percentage : ℚ
  data_points_working : ℕ
  data_points_out_of_hours : ℕ
deriving DecidableEq, Repr

def calculateDailyConsumption (rows : List WHRow) : DailyConsumption :=
  match rows with
  | [] => ⟨0, 0, 0, 0, 0, 0⟩
  | _ :: _ =>
    let wRows := rows.filter fun r => isWorkingHours r
    let oRows := rows.filter fun r => !(isWorkingHours r)
    let w := (wRows.map WHRow.value).sum
    let o := (oRows.map WHRow.value).sum
    let total := w + o
    let pct : ℚ := if 0 < total then o / total * 100 else 0
    ⟨w, o, total, pct, wRows.length, oRows.length⟩

/-- `_identify_consumption_issues`: flag when the out-of-hours sum
exceeds the working-hours sum or the out-of-hours percentage exceeds the
threshold.  (The Python second message interpolates the numeric
threshold; the text is kept without it.) -/
def identifyConsumptionIssues (threshold : ℚ) (stats : DailyConsumption) :
    Bool × List String :=
  let issues :=
    (if stats.out_of_hours_consumption > stats.working_hours_consumption then
      ["Out-of-hours consumption exceeds working hours consumption"] else []) ++
    (if stats.out_of_hours_percentage > threshold then
      ["Out-of-hours consumption exceeds threshold"] else [])
  (0 < issues.length, issues)

/-- The record returned by `_analyze_device_consumption` for a flagged
device-day (wall-clock metadata omitted). -/
structure OutOfHoursRecord where
  client_name : String
  analysis_date : String
  device_id : ℤ
  device_name : String
  param_key : String
  total_consumption : ℚ
  working_hours_consumption : ℚ
  out_of_hours_consumption : ℚ
  out_of_hours_percentage : ℚ
  data_points_working : ℕ
  data_points_out_of_hours : ℕ
  issues_identified : List String
  is_flagged : Bool
  threshold_used : ℚ
deriving DecidableEq, Repr

/-- `_analyze_device_consumption`: skip zero-total days, then return a
record only when the flagging criteria hold (`None` otherwise). -/
def analyzeDeviceConsumption (threshold : ℚ) (rows : List WHRow)
    (did : ℤ) (dn pk date : String) : Option OutOfHoursRecord :=
  let stats := calculateDailyConsumption rows
  if stats.total_consumption = 0 then none
  else
    let fi := identifyConsumptionIssues threshold stats
    if fi.1 then
      some { client_name := (rows.head?.map WHRow.client_name).getD "Unknown"
             analysis_date := date
             device_id := did
             device_name := dn
             param_key := pk
             total_consumption := round2 stats.total_consumption
             working_hours_consumption := round2 stats.working_hours_consumption
             out_of_hours_consumption := round2 stats.out_of_hours_consumption
             out_of_hours_percentage := round2 stats.out_of_hours_percentage
             data_points_working := stats.data_points_working
             data_points_out_of_hours := stats.data_points_out_of_hours
             issues_identified := fi.2
             is_flagged := true
             threshold_used := threshold }
    else none

/-- The pandas groupby key `(date, device_id, device_name, param_key)` of
`analyze_consumption`. -/
abbrev DayGroupKey := String × ℤ × String × String

/-- The loop of `analyze_consumption`: analyze each device-day group
whose `(device_id, param_key)` is configured, skip the others with a
warning; only non-`None` (flagged) results are collected. -/
def analyzeConsumptionGroups (cfg : AnalysisConfig) (threshold : ℚ)
    (gs : List (DayGroupKey × List WHRow)) : List OutOfHoursRecord :=
  gs.filterMap fun kg =>
    if isConfigured cfg kg.1.2.1 kg.1.2.2.2 then
      analyzeDeviceConsumption threshold kg.2 kg.1.2.1 kg.1.2.2.1 kg.1.2.2.2 kg.1.1
    else none

/-- A day with working-hours sum 80 and out-of-hours sum 20. -/
def rowsDay8020 : List WHRow := [⟨"Client A", 8 * 3600, 80⟩, ⟨"Client A", 0, 20⟩]

/-- A day with working-hours sum 40 and out-of-hours sum 60. -/
def rowsDay4060 : List WHRow := [⟨"Client A", 8 * 3600, 40⟩, ⟨"Client A", 0, 60⟩]

/-- C5: a zero-total day is skipped entirely (no record); a non-zero-
total day yields a record iff the out-of-hours sum exceeds the
working-hours sum or the out-of-hours percentage exceeds the threshold;
working 80 / out-of-hours 20 at threshold 30 is not flagged, while
working 40 / out-of-hours 60 is. -/
theorem out_of_hours_flagging_criteria (threshold : ℚ) (rows : List WHRow)
    (did : ℤ) (dn pk date : String) :
    ((calculateDailyConsumption rows).total_consumption = 0 →
      analyzeDeviceConsumption threshold rows did dn pk date = none) ∧
    ((calculateDailyConsumption rows).total_consumption ≠ 0 →
      ((analyzeDeviceConsumption threshold rows did dn pk date).isSome ↔
        ((calculateDailyConsumption rows).out_of_hours_consumption >
            (calculateDailyConsumption rows).working_hours_consumption ∨
          (calculateDailyConsumption rows).out_of_hours_percentage > threshold))) ∧
    analyzeDeviceConsumption 30 rowsDay8020 1 "Device A" "EACTIVE" "2024-01-01" = none ∧
    (analyzeDeviceConsumption 30 rowsDay4060 1 "Device A" "EACTIVE" "2024-01-01").isSome = true := by
  refine ⟨?_, ?_, ?_, ?_⟩
  · intro h0
    simp [analyzeDeviceConsumption, h0]
  · intro h0
    by_cases hc1 : (calculateDailyConsumption rows).out_of_hours_consumption >
        (calculateDailyConsumption rows).working_hours_consumption <;>
      by_cases hc2 : (calculateDailyConsumption rows).out_of_hours_percentage > threshold <;>
      simp [analyzeDeviceConsumption, identifyConsumptionIssues, h0, hc1, hc2]
  · norm_num [analyzeDeviceConsumption, calculateDailyConsumption,
      identifyConsumptionIssues, isWorkingHours, workingHoursStart, workingHoursEnd,
      rowsDay8020, List.filter_cons]
  · norm_num [analyzeDeviceConsumption, calculateDailyConsumption,
      identifyConsumptionIssues, isWorkingHours, workingHoursStart, workingHoursEnd,
      rowsDay4060, List.filter_cons]

/-- Witness for `out_of_hours_flagging_criteria` discharging its
hypotheses at the concrete 40/60 day. -/
theorem out_of_hours_flagging_criteria_witness :
    (analyzeDeviceConsumption 30 rowsDay4060 1 "Device A" "EACTIVE" "2024-01-01").isSome ↔
      ((calculateDailyConsumption rowsDay4060).out_of_hours_consumption >
          (calculateDailyConsumption rowsDay4060).working_hours_consumption ∨
        (calculateDailyConsumption rowsDay4060).out_of_hours_percentage > 30) :=
  (out_of_hours_flagging_criteria 30 rowsDay4060 1 "Device A" "EACTIVE" "2024-01-01").2.1
    (by norm_num [calculateDailyConsumption, isWorkingHours, workingHoursStart,
      workingHoursEnd, rowsDay4060, List.filter_cons])

/-- C10: every record emitted by the out-of-hours analysis has
`is_flagged == true`, and a device-day whose consumption statistics do
not meet the flagging criteria produces no record at all. -/
theorem out_of_hours_only_flagged_records :
    (∀ (cfg : AnalysisConfig) (threshold : ℚ) (gs : List (DayGroupKey × List WHRow)),
      ((analyzeConsumptionGroups cfg threshold gs).all fun r => r.is_flagged) = true) ∧
    (∀ (threshold : ℚ) (rows : List WHRow) (did : ℤ) (dn pk date : String),
      ¬((calculateDailyConsumption rows).out_of_hours_consumption >
          (calculateDailyConsumption rows).working_hours_consumption ∨
        (calculateDailyConsumption rows).out_of_hours_percentage > threshold) →
      analyzeDeviceConsumption threshold rows did dn pk date = none) := by
  constructor
  · intro cfg threshold gs
    rw [List.all_eq_true]
    intro r hr
    simp only [analyzeConsumptionGroups] at hr
    obtain ⟨kg, -, hsome⟩ := List.mem_filterMap.mp hr
    by_cases hc : isConfigured cfg kg.1.2.1 kg.1.2.2.2
    · simp only [hc, if_true] at hsome
      simp only [analyzeDeviceConsumption] at hsome
      by_cases h0 : (calculateDailyConsumption kg.2).total_consumption = 0
      · simp [h0] at hsome
      · simp only [h0, if_false] at hsome
        by_cases hf : (identifyConsumptionIssues threshold (calculateDailyConsumption kg.2)).1
        · simp only [hf, if_true, Option.some.injEq] at hsome
          rw [← hsome]
        · simp [hf] at hsome
    · simp [hc] at hsome
  · intro threshold rows did dn pk date hn
    push_neg at hn
    simp only [analyzeDeviceConsumption, identifyConsumptionIssues]
    simp only [not_lt.mpr hn.1, if_false, not_lt.mpr hn.2]
    simp

/-- Witness for `out_of_hours_only_flagged_records` discharging the
criteria hypothesis at the concrete 80/20 day. -/
theorem out_of_hours_only_flagged_records_witness :
    analyzeDeviceConsumption 30 rowsDay8020 1 "Device A" "EACTIVE" "2024-01-01" = none :=
  out_of_hours_only_flagged_records.2 30 rowsDay8020 1 "Device A" "EACTIVE" "2024-01-01"
    (by norm_num [calculateDailyConsumption, isWorkingHours, workingHoursStart,
      workingHoursEnd, rowsDay8020, List.filter_cons])

/-! ### Dropping unconfigured groups (all three analyzers) -/

theorem filterMap_guard {α β : Type} (p : α → Bool) (f : α → Option β) (l : List α) :
    (l.filterMap fun a => if p a then f a else none) = (l.filter p).filterMap f := by
  induction l with
  | nil => rfl
  | cons a t ih =>
    by_cases h : p a <;> simp [List.filter_cons, List.filterMap_cons, h, ih]

/-- C9: in each of the three analysis modules, a data group whose
`(device_id, param_key)` pair is not configured contributes nothing to
the results: the analysis of any group list equals the analysis of its
configured-only sublist. -/
theorem unconfigured_groups_dropped :
    (∀ (cfg : AnalysisConfig) (gs : List (GroupKey × List QReading)),
      analyzeQualityGroups cfg gs =
        analyzeQualityGroups cfg (gs.filter fun kg => isConfigured cfg kg.1.1 kg.1.2.2)) ∧
    (∀ (cfg : AnalysisConfig) (threshold : ℚ) (gs : List (GroupKey × List TrendReading)),
      analyzeTrendGroups cfg threshold gs =
        analyzeTrendGroups cfg threshold
          (gs.filter fun kg => isConfigured cfg kg.1.1 kg.1.2.2)) ∧
    (∀ (cfg : AnalysisConfig) (threshold : ℚ) (gs : List (DayGroupKey × List WHRow)),
      analyzeConsumptionGroups cfg threshold gs =
        analyzeConsumptionGroups cfg threshold
          (gs.filter fun kg => isConfigured cfg kg.1.2.1 kg.1.2.2.2)) := by
  refine ⟨?_, ?_, ?_⟩
  · intro cfg gs
    simp only [analyzeQualityGroups]
    rw [filterMap_guard, filterMap_guard, List.filter_filter]
    simp [Bool.and_self]
  · intro cfg threshold gs
    simp only [analyzeTrendGroups]
    rw [filterMap_guard, filterMap_guard, List.filter_filter]
    simp [Bool.and_self]
  · intro cfg threshold gs
    simp only [analyzeConsumptionGroups]
    rw [filterMap_guard, filterMap_guard, List.filter_filter]
    simp [Bool.and_self]
